import Mathlib

/-!
Shallow embedding of `benchmark_providers.py`, a script that benchmarks
disposable-email-detection HTTP providers against labeled email lists.

Modelling conventions:
* Decoded JSON values (what Python's `resp.json()` returns) are the inductive
  `Json`; Python dicts appear as ordered association lists.
* Python expressions that can raise are embedded in `Except Unit`; a `.error ()`
  is a raised exception (e.g. `AttributeError` from `.get` on a non-dict).
* Wall-clock times and all float arithmetic are modelled over `ℚ` (exact
  arithmetic); the scorer's divisions are the interesting part and they are
  exact in the source's formulas.
* The HTTP world is an oracle: a function from the built request to the
  outcome the `requests` library would deliver for it.
* Environment variables (`os.getenv`) are a function `String → Option String`.
-/

/-- Decoded JSON values, the codomain of Python's `resp.json()`.
Objects keep field order and are accessed positionally via `List.lookup`. -/
inductive Json where
  | null : Json
  | bool (b : Bool) : Json
  | num (q : ℚ) : Json
  | str (s : String) : Json
  | arr (elems : List Json) : Json
  | obj (fields : List (String × Json)) : Json

/-- Python truthiness `bool(x)` on a decoded JSON value: `None`, `False`, `0`,
`""`, `[]` and `{}` are falsy, everything else truthy.  Models the coercion
`bool(map_func(data))` at line 148 of the source. -/
def pyBool : Json → Bool
  | .null => false
  | .bool b => b
  | .num q => q ≠ 0
  | .str s => s ≠ ""
  | .arr elems => !elems.isEmpty
  | .obj fields => !fields.isEmpty

/-- Python `v.get(k, default)`: on a dict, the value at `k` or the default;
on any non-dict value `.get` does not exist, so the call raises
(`AttributeError`), modelled as `.error ()`. -/
def pyGet (v : Json) (k : String) (default : Json) : Except Unit Json :=
  match v with
  | .obj fields => .ok ((fields.lookup k).getD default)
  | _ => .error ()

/-- Python `v == s` for a string literal `s`: total, `True` only when `v` is an
equal string (no exception on other types). -/
def pyEqStr (v : Json) (s : String) : Bool :=
  match v with
  | .str t => t == s
  | _ => false

/-- Python `v == q` for a numeric literal `q`: numbers compare by value, and a
Python `bool` is an `int` (`True == 1`); other types are never equal. Total. -/
def pyEqNum (v : Json) (q : ℚ) : Bool :=
  match v with
  | .num x => x == q
  | .bool b => (if b then (1 : ℚ) else 0) == q
  | _ => false

/-- Python `s.lower()` on a string, character by character. -/
def pyLowerStr (s : String) : String := ⟨s.data.map Char.toLower⟩

/-- Python `v.lower()`: defined on strings only; on any other value the
attribute is missing and the call raises. -/
def pyLower (v : Json) : Except Unit Json :=
  match v with
  | .str s => .ok (.str (pyLowerStr s))
  | _ => .error ()

/-- Bouncer's `map_func` (line 33):
`lambda resp: resp.get("domain", {}).get("disposable") == "yes"`. -/
def bouncer_map (resp : Json) : Except Unit Json := do
  let dom ← pyGet resp "domain" (.obj [])
  let d ← pyGet dom "disposable" .null
  pure (.bool (pyEqStr d "yes"))

/-- Emailable's `map_func` (line 44): `lambda resp: resp.get("disposable", False)`. -/
def emailable_map (resp : Json) : Except Unit Json :=
  pyGet resp "disposable" (.bool false)

/-- Bouncify's `map_func` (line 58): `lambda resp: resp.get("disposable", 0) == 1`. -/
def bouncify_map (resp : Json) : Except Unit Json := do
  let d ← pyGet resp "disposable" (.num 0)
  pure (.bool (pyEqNum d 1))

/-- Mail-Check's `map_func` (line 71): `lambda resp: resp.get("disposable", False)`. -/
def mailcheck_map (resp : Json) : Except Unit Json :=
  pyGet resp "disposable" (.bool false)

/-- Reoon's `map_func` (line 83): `lambda resp: resp.get("is_disposable", False)`. -/
def reoon_map (resp : Json) : Except Unit Json :=
  pyGet resp "is_disposable" (.bool false)

/-- Debounce's `map_func` (line 93):
`lambda resp: resp.get("disposable", "false").lower() == "true"`. -/
def debounce_map (resp : Json) : Except Unit Json := do
  let d ← pyGet resp "disposable" (.str "false")
  let l ← pyLower d
  pure (.bool (pyEqStr l "true"))

/-- Kickbox's `map_func` (line 104): `lambda resp: resp.get("disposable", False)`. -/
def kickbox_map (resp : Json) : Except Unit Json :=
  pyGet resp "disposable" (.bool false)

/-- The `HttpMethod` enum of the source. -/
inductive HttpMethod where
  | GET : HttpMethod
  | POST : HttpMethod
deriving DecidableEq

/-- Source expression `HttpMethod.value.upper()` as used at line 128 (the enum values are already
upper-case strings). -/
def HttpMethod.valueUpper : HttpMethod → String
  | .GET => "GET"
  | .POST => "POST"

/-- One provider dict of the `PROVIDERS` table.  Header and parameter values
are `Option String` because `os.getenv` yields `None` when the variable is
unset, and because parameter slots to be filled with the email are the literal
`None`. -/
structure ProviderModel where
  name : String
  endpoint : String
  method : HttpMethod
  headers : List (String × Option String)
  params : List (String × Option String)
  map_func : Json → Except Unit Json

/-- The environment (`os.getenv`), a map from variable names to their values. -/
def Env : Type := String → Option String

/-- The `PROVIDERS` registry (lines 22-106), built from the environment. -/
def PROVIDERS (env : Env) : List ProviderModel :=
  [ { name := "Bouncer"
      endpoint := "https://api.usebouncer.com/v1.1/email/verify"
      method := .GET
      headers := [("x-api-key", env "BOUNCER_API_KEY")]
      params := [("email", none)]
      map_func := bouncer_map },
    { name := "Emailable"
      endpoint := "https://api.emailable.com/v1/verify"
      method := .GET
      headers := []
      params := [("email", none), ("api_key", env "EMAILABLE_API_KEY")]
      map_func := emailable_map },
    { name := "Bouncify"
      endpoint := "https://api.bouncify.io/v1/verify"
      method := .GET
      headers := [("Accept", some "*/*"), ("Content-Type", some "application/json")]
      params := [("apikey", env "BOUNCIFY_API_KEY"), ("email", none)]
      map_func := bouncify_map },
    { name := "Mail-Check"
      endpoint := "https://mailcheck.p.rapidapi.com"
      method := .GET
      headers := [("x-rapidapi-host", some "mailcheck.p.rapidapi.com"),
                  ("x-rapidapi-key", env "MAILCHECK_API_KEY")]
      params := [("domain", some "mailinator.com")]
      map_func := mailcheck_map },
    { name := "Reoon"
      endpoint := "https://emailverifier.reoon.com/api/v1/verify"
      method := .GET
      headers := []
      params := [("email", none), ("key", env "REOON_API_KEY"), ("mode", some "quick")]
      map_func := reoon_map },
    { name := "Debounce"
      endpoint := "https://disposable.debounce.io"
      method := .GET
      headers := []
      params := [("email", none)]
      map_func := debounce_map },
    { name := "Kickbox"
      endpoint := "https://api.kickbox.com/v2/verify"
      method := .GET
      headers := []
      params := [("email", none), ("apikey", env "KICKBOX_API_KEY")]
      map_func := kickbox_map } ]

/-- Python `s.strip()`: drop leading and trailing whitespace characters. -/
def pyStrip (s : String) : String :=
  ⟨((s.data.dropWhile Char.isWhitespace).reverse.dropWhile Char.isWhitespace).reverse⟩

/-- Function `load_emails` (lines 110-112): the file is modelled as its list of lines
(Python's file iteration); the comprehension
`[line.strip() for line in f if line.strip()]` filters each line by the
truthiness (non-emptiness) of its stripped form, then emits the stripped line. -/
def load_emails (lines : List String) : List String :=
  (lines.filter (fun line => !(pyStrip line).isEmpty)).map pyStrip

/-- One element of the `results` list of `test_provider` (line 154). -/
structure Verdict where
  predicted : Bool
  expected : Bool
  time_ms : ℚ
deriving DecidableEq

/-- The parameter-building loop of `test_provider` (lines 120-125): copy the
template in order, replacing each `None`-valued entry with the email. -/
def buildParams (template : List (String × Option String)) (email : String) :
    List (String × String) :=
  template.map (fun kv => (kv.1, kv.2.getD email))

/-- The outbound HTTP request as issued at lines 132-143 (the fixed
`timeout=10` is constant and omitted). -/
structure HttpRequest where
  url : String
  method : String
  headers : List (String × Option String)
  params : List (String × String)
deriving DecidableEq

/-- The request `test_provider` issues for one email of one provider. -/
def buildRequest (p : ProviderModel) (email : String) : HttpRequest :=
  { url := p.endpoint
    method := p.method.valueUpper
    headers := p.headers
    params := buildParams p.params email }

/-- An HTTP response as seen by the script: its status code (which the source
never reads) and its body decoded as JSON — `none` when the body is not JSON,
so that `resp.json()` raises. -/
structure HttpResponse where
  status : ℕ
  jsonBody : Option Json

/-- What `requests.get` does with one request: either return a response (of
any status — `requests` does not raise on non-2xx) or raise (connection
error, timeout, ...). -/
inductive RequestResult where
  | response (resp : HttpResponse) : RequestResult
  | exn : RequestResult

/-- The nondeterministic environment of one attempt: the result of the
`requests` call, the elapsed milliseconds measured right after it returns
(line 144), and the elapsed milliseconds measured in the `except` handler
(line 150), which is read whenever anything in the `try` block raised. -/
structure Attempt where
  result : RequestResult
  okElapsed : ℚ
  errElapsed : ℚ

/-- An HTTP oracle: the outcome the network delivers for each request. -/
def Oracle : Type := HttpRequest → Attempt

/-- The body of the per-email loop of `test_provider` (lines 120-154): build
the params, issue the request, and produce one `Verdict`; every exception path
(request raised, `resp.json()` raised, `map_func` raised) falls into the
`except` handler, which records the elapsed time at the failure point and
`predicted = False`. -/
def testEmail (p : ProviderModel) (oracle : Oracle) (expected : Bool)
    (email : String) : Verdict :=
  let att := oracle (buildRequest p email)
  match att.result with
  | .exn => { predicted := false, expected := expected, time_ms := att.errElapsed }
  | .response resp =>
    match resp.jsonBody with
    | none => { predicted := false, expected := expected, time_ms := att.errElapsed }
    | some data =>
      match p.map_func data with
      | .ok v => { predicted := pyBool v, expected := expected, time_ms := att.okElapsed }
      | .error _ =>
        { predicted := false, expected := expected, time_ms := att.errElapsed }

/-- Function `test_provider` (lines 115-156): one `Verdict` appended per email, in
input order. -/
def test_provider (p : ProviderModel) (oracle : Oracle) (email_list : List String)
    (expected_flag : Bool) : List Verdict :=
  email_list.map (testEmail p oracle expected_flag)

/-- Count `true_positives` (line 177): `sum(1 for r in all_results if r["predicted"] and r["expected"])`. -/
def true_positives (rs : List Verdict) : ℕ :=
  rs.countP (fun r => r.predicted && r.expected)

/-- Count `false_negatives` (line 178). -/
def false_negatives (rs : List Verdict) : ℕ :=
  rs.countP (fun r => !r.predicted && r.expected)

/-- Count `false_positives` (line 179). -/
def false_positives (rs : List Verdict) : ℕ :=
  rs.countP (fun r => r.predicted && !r.expected)

/-- Count `true_negatives` (line 180). -/
def true_negatives (rs : List Verdict) : ℕ :=
  rs.countP (fun r => !r.predicted && !r.expected)

/-- Count `total_requests` (line 182): `len(all_results)`. -/
def total_requests (rs : List Verdict) : ℕ := rs.length

/-- Mean `avg_response_time` (lines 183-186): guarded by the truthiness of
`total_requests` (non-zero), else `0`. -/
def avg_response_time (rs : List Verdict) : ℚ :=
  if total_requests rs ≠ 0 then
    (rs.map Verdict.time_ms).sum / (total_requests rs : ℚ)
  else 0

/-- Metric `accuracy` (lines 188-191). -/
def accuracy (rs : List Verdict) : ℚ :=
  if total_requests rs ≠ 0 then
    ((true_positives rs + true_negatives rs : ℕ) : ℚ) / (total_requests rs : ℚ)
  else 0

/-- Metric `precision` (lines 192-195). -/
def precision (rs : List Verdict) : ℚ :=
  if true_positives rs + false_positives rs ≠ 0 then
    (true_positives rs : ℚ) / ((true_positives rs + false_positives rs : ℕ) : ℚ)
  else 0

/-- Metric `recall` (lines 196-199); primed because `recall` is taken by Mathlib. -/
def recall' (rs : List Verdict) : ℚ :=
  if true_positives rs + false_negatives rs ≠ 0 then
    (true_positives rs : ℚ) / ((true_positives rs + false_negatives rs : ℕ) : ℚ)
  else 0

/-- The numeric part of one summary record (lines 201-214); the provider name
column is the constant `provider["name"]` and carries no computation. -/
structure ProviderReport where
  totalRequests : ℕ
  avgLatencyMs : ℚ
  truePositives : ℕ
  falseNegatives : ℕ
  falsePositives : ℕ
  trueNegatives : ℕ
  accuracy : ℚ
  precision : ℚ
  recall' : ℚ
deriving DecidableEq

/-- The scorer: the aggregation block of `main` (lines 177-214) as one pure
function of the verdict list. -/
def score (rs : List Verdict) : ProviderReport :=
  { totalRequests := total_requests rs
    avgLatencyMs := avg_response_time rs
    truePositives := true_positives rs
    falseNegatives := false_negatives rs
    falsePositives := false_positives rs
    trueNegatives := true_negatives rs
    accuracy := accuracy rs
    precision := precision rs
    recall' := recall' rs }

/-- Division that signals Python's `ZeroDivisionError` as `none`. -/
def pyDiv (a b : ℚ) : Option ℚ :=
  if b = 0 then none else some (a / b)

/-- The scorer with every division checked: each division site of lines
183-199 goes through `pyDiv` under exactly the guard the source writes, so a
`none` result would mean a reachable `ZeroDivisionError`. -/
def scoreE (rs : List Verdict) : Option ProviderReport :=
  (if total_requests rs ≠ 0 then
      pyDiv ((rs.map Verdict.time_ms).sum) (total_requests rs : ℚ)
    else some 0).bind fun avg =>
  (if total_requests rs ≠ 0 then
      pyDiv ((true_positives rs + true_negatives rs : ℕ) : ℚ) (total_requests rs : ℚ)
    else some 0).bind fun acc =>
  (if true_positives rs + false_positives rs ≠ 0 then
      pyDiv (true_positives rs : ℚ) ((true_positives rs + false_positives rs : ℕ) : ℚ)
    else some 0).bind fun prec =>
  (if true_positives rs + false_negatives rs ≠ 0 then
      pyDiv (true_positives rs : ℚ) ((true_positives rs + false_negatives rs : ℕ) : ℚ)
    else some 0).bind fun rcl =>
  some
    { totalRequests := total_requests rs
      avgLatencyMs := avg
      truePositives := true_positives rs
      falseNegatives := false_negatives rs
      falsePositives := false_positives rs
      trueNegatives := true_negatives rs
      accuracy := acc
      precision := prec
      recall' := rcl }

/-! ### Helper lemmas -/

/-- The four confusion counts partition the verdict list. -/
lemma counts_partition (rs : List Verdict) :
    true_positives rs + false_negatives rs + false_positives rs + true_negatives rs
      = rs.length := by
  induction rs with
  | nil => rfl
  | cons r t ih =>
    simp only [true_positives, false_negatives, false_positives, true_negatives,
      List.countP_cons, List.length_cons] at *
    cases hp : r.predicted <;> cases he : r.expected <;> simp [hp, he] <;> omega

/-- Lower-casing the literal `"false"` is the identity. -/
lemma pyLowerStr_false : pyLowerStr "false" = "false" := rfl

/-- Bounds of a ratio guarded the way the scorer guards it. -/
lemma guarded_div_bounds (a b : ℕ) (hle : a ≤ b) :
    0 ≤ (if b ≠ 0 then ((a : ℕ) : ℚ) / ((b : ℕ) : ℚ) else 0) ∧
      (if b ≠ 0 then ((a : ℕ) : ℚ) / ((b : ℕ) : ℚ) else 0) ≤ 1 := by
  by_cases h : b = 0
  · simp [h]
  · have hb : (0 : ℚ) < (b : ℚ) := by exact_mod_cast Nat.pos_of_ne_zero h
    rw [if_pos h]
    constructor
    · positivity
    · rw [div_le_one hb]
      exact_mod_cast hle

/-! ### Spec-side definitions (used to compare against the code's) -/

/-- Spec-side true-positive count: verdicts with `(predicted, expected) = (true, true)`. -/
def tpSpec (rs : List Verdict) : ℕ :=
  rs.countP fun r => decide ((r.predicted, r.expected) = (true, true))

/-- Spec-side false-negative count: `(predicted, expected) = (false, true)`. -/
def fnSpec (rs : List Verdict) : ℕ :=
  rs.countP fun r => decide ((r.predicted, r.expected) = (false, true))

/-- Spec-side false-positive count: `(predicted, expected) = (true, false)`. -/
def fpSpec (rs : List Verdict) : ℕ :=
  rs.countP fun r => decide ((r.predicted, r.expected) = (true, false))

/-- Spec-side true-negative count: `(predicted, expected) = (false, false)`. -/
def tnSpec (rs : List Verdict) : ℕ :=
  rs.countP fun r => decide ((r.predicted, r.expected) = (false, false))

/-- The code's `true_positives` is the spec's. -/
lemma tp_eq_spec (rs : List Verdict) : true_positives rs = tpSpec rs := by
  unfold true_positives tpSpec
  congr 1
  funext r
  cases r.predicted <;> cases r.expected <;> rfl

/-- The code's `false_negatives` is the spec's. -/
lemma fn_eq_spec (rs : List Verdict) : false_negatives rs = fnSpec rs := by
  unfold false_negatives fnSpec
  congr 1
  funext r
  cases r.predicted <;> cases r.expected <;> rfl

/-- The code's `false_positives` is the spec's. -/
lemma fp_eq_spec (rs : List Verdict) : false_positives rs = fpSpec rs := by
  unfold false_positives fpSpec
  congr 1
  funext r
  cases r.predicted <;> cases r.expected <;> rfl

/-- The code's `true_negatives` is the spec's. -/
lemma tn_eq_spec (rs : List Verdict) : true_negatives rs = tnSpec rs := by
  unfold true_negatives tnSpec
  congr 1
  funext r
  cases r.predicted <;> cases r.expected <;> rfl

/-! ### Claim theorems -/

/-- C3: for every sequence of Verdicts, the scorer computes
`accuracy = (tp+tn)/totalRequests` (0 when `totalRequests` is 0),
`precision = tp/(tp+fp)` (0 when `tp+fp` is 0), and `recall = tp/(tp+fn)`
(0 when `tp+fn` is 0), where `tp, fn, fp, tn` count the verdicts with
`(predicted, expected)` equal to `(true,true)`, `(false,true)`, `(true,false)`,
`(false,false)` respectively, and `totalRequests` is the sequence length. -/
theorem scorer_formulas (rs : List Verdict) :
    total_requests rs = rs.length ∧
    accuracy rs =
      (if rs.length ≠ 0 then ((tpSpec rs + tnSpec rs : ℕ) : ℚ) / (rs.length : ℚ) else 0) ∧
    precision rs =
      (if tpSpec rs + fpSpec rs ≠ 0 then
        ((tpSpec rs : ℕ) : ℚ) / ((tpSpec rs + fpSpec rs : ℕ) : ℚ) else 0) ∧
    recall' rs =
      (if tpSpec rs + fnSpec rs ≠ 0 then
        ((tpSpec rs : ℕ) : ℚ) / ((tpSpec rs + fnSpec rs : ℕ) : ℚ) else 0) := by
  refine ⟨rfl, ?_, ?_, ?_⟩
  · rw [accuracy, tp_eq_spec, tn_eq_spec]; rfl
  · rw [precision, tp_eq_spec, fp_eq_spec]
  · rw [recall', tp_eq_spec, fn_eq_spec]

/-- C4: for every sequence of Verdicts, including the empty one, the four
confusion-matrix counts satisfy `tp + fn + fp + tn = totalRequests = length`. -/
theorem confusion_partition (rs : List Verdict) :
    true_positives rs + false_negatives rs + false_positives rs + true_negatives rs
        = total_requests rs ∧
      total_requests rs = rs.length :=
  ⟨counts_partition rs, rfl⟩

/-- C5: the scorer applied to the empty sequence yields `totalRequests = 0`,
`accuracy = precision = recall = 0` and average latency 0; and every division
of the scorer is guarded, so the division-by-zero branch is unreachable on
every input (`scoreE`, which signals any unguarded division as `none`, always
returns the plain `score`). -/
theorem scorer_empty_safe :
    (∀ rs : List Verdict, scoreE rs = some (score rs)) ∧
    score [] =
      { totalRequests := 0, avgLatencyMs := 0, truePositives := 0, falseNegatives := 0,
        falsePositives := 0, trueNegatives := 0, accuracy := 0, precision := 0,
        recall' := 0 } := by
  constructor
  · intro rs
    unfold scoreE score avg_response_time accuracy precision recall' pyDiv
    have h2q : ((true_positives rs : ℚ) + (false_positives rs : ℚ) = 0)
        ↔ (true_positives rs + false_positives rs = 0) := by
      rw [← Nat.cast_add]; exact Nat.cast_eq_zero
    have h3q : ((true_positives rs : ℚ) + (false_negatives rs : ℚ) = 0)
        ↔ (true_positives rs + false_negatives rs = 0) := by
      rw [← Nat.cast_add]; exact Nat.cast_eq_zero
    by_cases h1 : total_requests rs = 0 <;>
      by_cases h2 : true_positives rs + false_positives rs = 0 <;>
        by_cases h3 : true_positives rs + false_negatives rs = 0 <;>
          simp [h1, h2, h3, h2q, h3q, Option.bind, Nat.cast_eq_zero]
  · rfl

/-- C6: the scorer is invariant under permutation of the verdict sequence:
every field of the derived report is the same for a list and any reordering
of it. -/
theorem score_perm_invariant (rs rs' : List Verdict) (h : rs.Perm rs') :
    score rs = score rs' := by
  have hlen : rs.length = rs'.length := h.length_eq
  have htp := h.countP_eq (fun r => r.predicted && r.expected)
  have hfn := h.countP_eq (fun r => !r.predicted && r.expected)
  have hfp := h.countP_eq (fun r => r.predicted && !r.expected)
  have htn := h.countP_eq (fun r => !r.predicted && !r.expected)
  have hsum : (rs.map Verdict.time_ms).sum = (rs'.map Verdict.time_ms).sum :=
    (h.map Verdict.time_ms).sum_eq
  unfold score avg_response_time accuracy precision recall' true_positives
    false_negatives false_positives true_negatives total_requests
  rw [hlen, htp, hfn, hfp, htn, hsum]

/-- C6 witness: a concrete two-element list and its transposition score
identically. -/
theorem score_perm_invariant_witness :
    score [⟨true, true, 3⟩, ⟨false, true, 5⟩] = score [⟨false, true, 5⟩, ⟨true, true, 3⟩] :=
  score_perm_invariant _ _ (List.Perm.swap _ _ _)

/-- C10: for every sequence of Verdicts the derived rates are bounded:
accuracy, precision and recall each lie in `[0, 1]`. -/
theorem rates_bounded (rs : List Verdict) :
    0 ≤ accuracy rs ∧ accuracy rs ≤ 1 ∧
    0 ≤ precision rs ∧ precision rs ≤ 1 ∧
    0 ≤ recall' rs ∧ recall' rs ≤ 1 := by
  have hacc := guarded_div_bounds (true_positives rs + true_negatives rs)
    (total_requests rs) (by have := counts_partition rs; unfold total_requests; omega)
  have hprec := guarded_div_bounds (true_positives rs)
    (true_positives rs + false_positives rs) (Nat.le_add_right _ _)
  have hrec := guarded_div_bounds (true_positives rs)
    (true_positives rs + false_negatives rs) (Nat.le_add_right _ _)
  unfold accuracy precision recall'
  exact ⟨hacc.1, hacc.2, hprec.1, hprec.2, hrec.1, hrec.2⟩

/-- C9: `load_emails` returns exactly the lines of the file trimmed of
surrounding whitespace, with lines that are empty after trimming discarded,
in their original order. -/
theorem load_emails_spec (lines : List String) :
    load_emails lines = (lines.map pyStrip).filter (fun s => !s.isEmpty) := by
  induction lines with
  | nil => rfl
  | cons l t ih =>
    simp only [load_emails, List.filter_cons, List.map_cons] at *
    cases h : (pyStrip l).isEmpty <;> simp [h, ih]

/-- C7: the request parameters are the provider's `paramTemplate` copied in
order and at the same length, with every `None`-valued entry replaced by the
email and every other entry passed through unchanged. -/
theorem buildParams_spec (template : List (String × Option String)) (email : String) :
    (buildParams template email).length = template.length ∧
    (∀ i k, template.get? i = some (k, none) →
      (buildParams template email).get? i = some (k, email)) ∧
    (∀ i k v, template.get? i = some (k, some v) →
      (buildParams template email).get? i = some (k, v)) := by
  refine ⟨by simp [buildParams], ?_, ?_⟩
  · intro i k h
    rw [List.get?_eq_getElem?] at h ⊢
    simp [buildParams, List.getElem?_map, h]
  · intro i k v h
    rw [List.get?_eq_getElem?] at h ⊢
    simp [buildParams, List.getElem?_map, h]

/-- C7 witness: a two-entry template with one `None` slot and one static
value. -/
theorem buildParams_spec_witness :
    (buildParams [("email", none), ("k", some "v")] "x@y").get? 0 = some ("email", "x@y") ∧
    (buildParams [("email", none), ("k", some "v")] "x@y").get? 1 = some ("k", "v") :=
  ⟨(buildParams_spec [("email", none), ("k", some "v")] "x@y").2.1 0 "email" rfl,
   (buildParams_spec [("email", none), ("k", some "v")] "x@y").2.2 1 "k" "v" rfl⟩

/-- C8: for every environment and email, the Mail-Check descriptor's built
parameters are the fixed `[("domain", "mailinator.com")]` — independent of the
email — while every other descriptor's built parameters contain the email
under test. -/
theorem mailcheck_params_fixed (env : Env) (email email' : String) :
    (∀ p ∈ PROVIDERS env, p.name = "Mail-Check" →
      buildParams p.params email = [("domain", "mailinator.com")] ∧
      buildParams p.params email = buildParams p.params email') ∧
    (∀ p ∈ PROVIDERS env, p.name ≠ "Mail-Check" →
      ("email", email) ∈ buildParams p.params email) := by
  constructor <;>
    · intro p hp hname
      simp only [PROVIDERS, List.mem_cons, List.not_mem_nil, or_false] at hp
      rcases hp with rfl | rfl | rfl | rfl | rfl | rfl | rfl <;>
        simp_all [buildParams]

/-- C8 witness: the Mail-Check entry of the registry under the empty
environment, at a concrete email. -/
theorem mailcheck_params_fixed_witness :
    buildParams [("domain", some "mailinator.com")] "a@b.c" = [("domain", "mailinator.com")] :=
  ((mailcheck_params_fixed (fun _ => none) "a@b.c" "x@y").1
    { name := "Mail-Check"
      endpoint := "https://mailcheck.p.rapidapi.com"
      method := .GET
      headers := [("x-rapidapi-host", some "mailcheck.p.rapidapi.com"),
                  ("x-rapidapi-key", none)]
      params := [("domain", some "mailinator.com")]
      map_func := mailcheck_map }
    (List.Mem.tail _ (List.Mem.tail _ (List.Mem.tail _ (List.Mem.head _)))) rfl).1

/-- C2 counterexample: a type-mismatched field makes a registry `map_func`
raise instead of yielding false — Bouncer's on a string-valued `"domain"`
(Python `"...".get` raises `AttributeError`) and Debounce's on a
boolean-valued `"disposable"` (Python `True.lower()` raises). -/
theorem map_func_mismatch_raises :
    bouncer_map (Json.obj [("domain", Json.str "not-a-dict")]) = .error () ∧
    debounce_map (Json.obj [("disposable", Json.bool true)]) = .error () :=
  ⟨rfl, rfl⟩

/-- C2 as amended: every registry `map_func` never raises on a missing key —
applied to any decoded JSON object in which its classification fields are
absent, it returns boolean false ("not disposable"); totality over
type-mismatched fields does not hold (see the counterexample). -/
theorem map_funcs_missing_field_false (fields : List (String × Json))
    (h1 : fields.lookup "domain" = none)
    (h2 : fields.lookup "disposable" = none)
    (h3 : fields.lookup "is_disposable" = none) :
    bouncer_map (.obj fields) = .ok (.bool false) ∧
    emailable_map (.obj fields) = .ok (.bool false) ∧
    bouncify_map (.obj fields) = .ok (.bool false) ∧
    mailcheck_map (.obj fields) = .ok (.bool false) ∧
    reoon_map (.obj fields) = .ok (.bool false) ∧
    debounce_map (.obj fields) = .ok (.bool false) ∧
    kickbox_map (.obj fields) = .ok (.bool false) := by
  simp [bouncer_map, emailable_map, bouncify_map, mailcheck_map, reoon_map,
    debounce_map, kickbox_map, pyGet, pyEqStr, pyEqNum, pyLower, pyLowerStr_false,
    h1, h2, h3]
  exact ⟨rfl, rfl⟩

/-- C2 witness: the empty JSON object has all fields missing and every
`map_func` classifies it as false. -/
theorem map_funcs_missing_field_false_witness :
    bouncer_map (.obj []) = .ok (.bool false) ∧
    emailable_map (.obj []) = .ok (.bool false) ∧
    bouncify_map (.obj []) = .ok (.bool false) ∧
    mailcheck_map (.obj []) = .ok (.bool false) ∧
    reoon_map (.obj []) = .ok (.bool false) ∧
    debounce_map (.obj []) = .ok (.bool false) ∧
    kickbox_map (.obj []) = .ok (.bool false) :=
  map_funcs_missing_field_false [] rfl rfl rfl

/-- C1 counterexample: a non-2xx response is not treated as an error — the
source never reads the status code.  Kickbox (registry entry 6) under an
oracle answering status 404 with body `{"disposable": true}` yields
`predicted = true` with the success-path elapsed time, not the
`predicted = false` failure Verdict the claim requires for non-2xx. -/
theorem non2xx_not_error :
    testEmail ((PROVIDERS (fun _ => none)).get ⟨6, by norm_num [PROVIDERS]⟩)
      (fun _ =>
        { result := .response
            { status := 404, jsonBody := some (Json.obj [("disposable", Json.bool true)]) },
          okElapsed := 3, errElapsed := 9 })
      false "a@b.c"
      = { predicted := true, expected := false, time_ms := 3 } :=
  rfl

/-- C1 as amended: `test_provider` returns exactly one Verdict per input
email, in input order; and on any per-request exception — network error or
timeout (the request raises), non-JSON body (`resp.json()` raises), or an
exception inside `classify` — it records the elapsed time measured at the
failure point, sets `predicted = false`, and emits the Verdict rather than
raising.  Non-2xx responses are not errors: the status code is never
inspected, and their JSON bodies are classified normally. -/
theorem test_provider_contract (p : ProviderModel) (oracle : Oracle)
    (emails : List String) (expected : Bool) :
    (test_provider p oracle emails expected).length = emails.length ∧
    (∀ i, (test_provider p oracle emails expected).get? i
        = (emails.get? i).map (testEmail p oracle expected)) ∧
    (∀ email, (oracle (buildRequest p email)).result = .exn →
      testEmail p oracle expected email
        = { predicted := false, expected := expected,
            time_ms := (oracle (buildRequest p email)).errElapsed }) ∧
    (∀ email resp, (oracle (buildRequest p email)).result = .response resp →
      resp.jsonBody = none →
      testEmail p oracle expected email
        = { predicted := false, expected := expected,
            time_ms := (oracle (buildRequest p email)).errElapsed }) ∧
    (∀ email resp data, (oracle (buildRequest p email)).result = .response resp →
      resp.jsonBody = some data → p.map_func data = .error () →
      testEmail p oracle expected email
        = { predicted := false, expected := expected,
            time_ms := (oracle (buildRequest p email)).errElapsed }) := by
  refine ⟨by simp [test_provider], ?_, ?_, ?_, ?_⟩
  · intro i
    simp [test_provider]
  · intro email h
    simp [testEmail, h]
  · intro email resp h1 h2
    simp [testEmail, h1, h2]
  · intro email resp data h1 h2 h3
    simp [testEmail, h1, h2, h3]

/-- C1 witness: Debounce (registry entry 5) under an oracle whose request
raises; the emitted Verdict carries `predicted = false` and the elapsed time
of the except handler. -/
theorem test_provider_contract_witness :
    testEmail ((PROVIDERS (fun _ => none)).get ⟨5, by norm_num [PROVIDERS]⟩)
      (fun _ => { result := .exn, okElapsed := 0, errElapsed := 7 }) true "a@b.c"
      = { predicted := false, expected := true, time_ms := 7 } :=
  (test_provider_contract ((PROVIDERS (fun _ => none)).get ⟨5, by norm_num [PROVIDERS]⟩)
    (fun _ => { result := .exn, okElapsed := 0, errElapsed := 7 })
    ["a@b.c"] true).2.2.1 "a@b.c" rfl
